import Mathlib

/-!
# ChulAutoStock — verification of the daily phase scheduler and trading logic

Shallow embedding of the ChulAutoStock repository (an intraday auto-trading
system).  The embedding follows the Python sources:

* `phase2_monitoring.py` — pre-market monitoring and band filtering;
* `phase3_scoring.py`    — candidate scoring and normalization;
* `phase4_position.py`   — position management, sell conditions, liquidation;
* `phase5_closing.py`    — end-of-day liquidation sweep;
* `main.py`              — the outer scheduling loop (`run_forever`), phase
  dispatch, completion flags, daily reset and sleep mode.

Money amounts, prices and percent rates are modelled as rationals (`ℚ`);
the Python floats at stake only undergo ordering comparisons and field
arithmetic on small decimal values, which the rational model reflects
exactly.  Broker I/O is modelled by explicit oracle parameters (a `Bool`
or `String → Bool` describing whether a given call returns a truthy
result), matching how the code branches only on truthiness of results.
-/

namespace ChulAutoStock

/-! ## Market data records (`phase2_monitoring.py`)

One element of `Phase2Monitoring.market_data` (built in `run`, lines 76–84):
keys 종목코드, 종목명, 전일종가, 현재가, 등락률, 거래량, 거래대금. -/

structure Stock where
  code : String
  name : String
  prevClose : ℚ
  price : ℚ
  /-- 등락률: percent change vs. prior close, as stored in the record. -/
  rate : ℚ
  volume : ℚ
  value : ℚ
  deriving DecidableEq, Repr

/-- The membership test of `get_filtered_stocks`
(`phase2_monitoring.py` 218–221): `min_rate <= stock['등락률'] <= max_rate`. -/
def in_band (min_rate max_rate : ℚ) (s : Stock) : Bool :=
  decide (min_rate ≤ s.rate) && decide (s.rate ≤ max_rate)

/-- `Phase2Monitoring.get_filtered_stocks` (`phase2_monitoring.py` 207–221):
a plain list comprehension over `self.market_data` keeping the stocks whose
등락률 lies in the closed band; no truncation of any kind is applied. -/
def get_filtered_stocks (market_data : List Stock) (min_rate max_rate : ℚ) :
    List Stock :=
  market_data.filter (in_band min_rate max_rate)

/-! ## Scoring (`phase3_scoring.py`) -/

/-- `Phase3Scoring._normalize` (`phase3_scoring.py` 139–155): min-max
normalization clamped to `[0, 1]`, returning `0.5` when `max_val == min_val`. -/
def normalize (value min_val max_val : ℚ) : ℚ :=
  if max_val = min_val then 1/2
  else max 0 (min 1 ((value - min_val) / (max_val - min_val)))

/-- `Phase3Scoring._normalize_log` (`phase3_scoring.py` 157–179).
`math.log10` appears only in the non-degenerate branch and is passed in as an
uninterpreted parameter `log10` (it is transcendental on `ℚ`); every theorem
below concerns the degenerate guard `max_val <= min_val or value <= 0`, whose
result `0` is independent of `log10`. -/
def normalize_log (log10 : ℚ → ℚ) (value min_val max_val : ℚ) : ℚ :=
  if max_val ≤ min_val ∨ value ≤ 0 then 0
  else normalize (log10 (value + 1)) (log10 (min_val + 1)) (log10 (max_val + 1))

/-- `max(s['거래량'] for s in stocks)` as used by `_get_max_values`
(`phase3_scoring.py` 119–127); Python `max` over a nonempty iterable. -/
def max_volume : List Stock → ℚ
  | [] => 0
  | s :: rest => rest.foldl (fun a x => max a x.volume) s.volume

/-- `min(s['거래량'] for s in stocks)` as used by `_get_min_values`
(`phase3_scoring.py` 129–137). -/
def min_volume : List Stock → ℚ
  | [] => 0
  | s :: rest => rest.foldl (fun a x => min a x.volume) s.volume

/-- `max(s['거래대금'] for s in stocks)` (`_get_max_values`). -/
def max_value : List Stock → ℚ
  | [] => 0
  | s :: rest => rest.foldl (fun a x => max a x.value) s.value

/-- `min(s['거래대금'] for s in stocks)` (`_get_min_values`). -/
def min_value : List Stock → ℚ
  | [] => 0
  | s :: rest => rest.foldl (fun a x => min a x.value) s.value

/-- The 등락률 sub-score (`_calculate_scores`, line 80):
`self._normalize(change_rate, 2.0, 4.0) * 100`. -/
def change_score (s : Stock) : ℚ := normalize s.rate 2 4 * 100

/-- The 거래량증가율 (volume) sub-score (`_calculate_scores`, lines 84–89):
`self._normalize_log(volume, min, max) * 100` where min/max range over the
volumes of the filtered candidate list. -/
def volume_score (log10 : ℚ → ℚ) (stocks : List Stock) (s : Stock) : ℚ :=
  normalize_log log10 s.volume (min_volume stocks) (max_volume stocks) * 100

/-- The 거래대금 (traded value) sub-score (`_calculate_scores`, lines 92–97). -/
def value_score (log10 : ℚ → ℚ) (stocks : List Stock) (s : Stock) : ℚ :=
  normalize_log log10 s.value (min_value stocks) (max_value stocks) * 100

/-- The 안정성 sub-score (`_calculate_scores`, lines 99–102):
`max(0, min(100, 100 - abs(change_rate - 3.0) * 50))`. -/
def stability_score (s : Stock) : ℚ :=
  max 0 (min 100 (100 - |s.rate - 3| * 50))

/-- The weighted total (`_calculate_scores`, lines 104–108) with the weights
of `phase3_scoring.py` 29–34: 등락률 0.35, 거래량증가율 0.25, 거래대금 0.20,
안정성 0.20. -/
def total_score (log10 : ℚ → ℚ) (stocks : List Stock) (s : Stock) : ℚ :=
  change_score s * (35/100) + volume_score log10 stocks s * (25/100) +
    value_score log10 stocks s * (20/100) + stability_score s * (20/100)

structure ScoredStock where
  stock : Stock
  total : ℚ
  deriving DecidableEq, Repr

/-- The per-stock scoring pass of `_calculate_scores` (lines 75–114). -/
def calculate_scores (log10 : ℚ → ℚ) (stocks : List Stock) : List ScoredStock :=
  stocks.map (fun s => ⟨s, total_score log10 stocks s⟩)

/-- `self.scored_stocks.sort(key=lambda x: x['총점'], reverse=True)`
(line 117): a stable sort, descending by total score. -/
def sort_scored (l : List ScoredStock) : List ScoredStock :=
  l.insertionSort (fun a b => b.total ≤ a.total)

/-- `Phase3Scoring.run` (`phase3_scoring.py` 36–65) restricted to its return
value: empty input returns `[]` immediately; otherwise the scored list is
sorted and the top 3 (`_select_top_stocks`, line 183) are returned. -/
def phase3_run (log10 : ℚ → ℚ) (filtered : List Stock) : List ScoredStock :=
  if filtered.isEmpty then []
  else (sort_scored (calculate_scores log10 filtered)).take 3

/-! ## Positions and sell conditions (`phase4_position.py`) -/

/-- One entry of `Phase4Position.positions` (lines 127–135 / 184–192). -/
structure Position where
  name : String
  qty : ℤ
  buyPrice : ℚ
  curPrice : ℚ
  profitRate : ℚ
  /-- 상태: `"보유"` (Open), `"매도완료"` (profit exit), `"손절완료"` (stop exit). -/
  status : String
  deriving DecidableEq, Repr

structure TradeRecord where
  code : String
  side : String
  qty : ℤ
  reason : String
  deriving DecidableEq, Repr

/-- `Phase4Position._execute_sell` (lines 256–318), restricted to its effect on
`trade_history`: the record is appended only when `api.sell_stock` returns a
truthy result (`sell_ok`); on a falsy result only an error line is printed. -/
def execute_sell (sell_ok : Bool) (history : List TradeRecord)
    (rec : TradeRecord) : List TradeRecord :=
  if sell_ok then history ++ [rec] else history

/-- `Phase4Position._check_sell_conditions` (lines 230–254).  On
`profit_rate >= PROFIT_TARGET` it calls `_execute_sell` and then assigns
`position["상태"] = "매도완료"`; on `profit_rate <= STOP_LOSS` it calls
`_execute_sell` and then assigns `"손절완료"`.  Both assignments are
unconditional — they do not inspect the result of the sell call, which
`_execute_sell` does not even return. -/
def check_sell_conditions (sell_ok : Bool) (profit_target stop_loss : ℚ)
    (code : String) (pos : Position) (profit_rate : ℚ)
    (history : List TradeRecord) : Position × List TradeRecord :=
  if profit_target ≤ profit_rate then
    ({ pos with status := "매도완료" },
      execute_sell sell_ok history ⟨code, "매도", pos.qty, "익절"⟩)
  else if profit_rate ≤ stop_loss then
    ({ pos with status := "손절완료" },
      execute_sell sell_ok history ⟨code, "매도", pos.qty, "손절"⟩)
  else (pos, history)

/-- The skip test of `monitor_positions` (line 201): a position is *not*
polled again once `position.get("상태") != "보유"`. -/
def monitor_skips (pos : Position) : Bool := pos.status ≠ "보유"

/-- One per-position step of `monitor_positions` (lines 200–228): skip unless
상태 is `"보유"`; skip when the quote is missing or non-positive; otherwise
update 현재가/수익률 and run `_check_sell_conditions`. -/
def monitor_poll_step (sell_ok : Bool) (profit_target stop_loss : ℚ)
    (code : String) (pos : Position) (quote : Option ℚ)
    (history : List TradeRecord) : Position × List TradeRecord :=
  if monitor_skips pos then (pos, history)
  else
    match quote with
    | none => (pos, history)
    | some price =>
      if price ≤ 0 then (pos, history)
      else
        let rate := if 0 < pos.buyPrice
          then (price - pos.buyPrice) / pos.buyPrice * 100 else 0
        check_sell_conditions sell_ok profit_target stop_loss code
          { pos with curPrice := price, profitRate := rate } rate history

/-! ## Phase 5 liquidation (`phase5_closing.py`) -/

/-- One entry of `api.get_stock_balance()` as read by
`liquidate_all_positions` (lines 86–91). -/
structure BalanceStock where
  code : String
  name : String
  qty : ℤ
  profit : ℚ
  profitRate : ℚ
  deriving DecidableEq, Repr

structure LiqResult where
  /-- codes for which `api.sell_stock` was invoked, in sweep order. -/
  orders : List String
  success : Nat
  fail : Nat
  totalProfit : ℚ
  deriving DecidableEq, Repr

/-- The loop body of `Phase5Closing.liquidate_all_positions` (lines 86–111):
entries with `보유수량 <= 0` are skipped; every other entry gets a market sell
order, counted as success or failure by the truthiness of the result. -/
def liquidate_step (sell_ok : String → Bool) (acc : LiqResult)
    (st : BalanceStock) : LiqResult :=
  if st.qty ≤ 0 then acc
  else if sell_ok st.code then
    ⟨acc.orders ++ [st.code], acc.success + 1, acc.fail,
      acc.totalProfit + st.profit⟩
  else ⟨acc.orders ++ [st.code], acc.success, acc.fail + 1, acc.totalProfit⟩

/-- `Phase5Closing.liquidate_all_positions` (lines 61–130): early return on an
empty balance, otherwise the sweep over the broker balance list.  Note the
sweep consults only `api.get_stock_balance()`; the Phase 4 `positions`
dictionary and its 상태 fields are never read here. -/
def liquidate_all_positions (sell_ok : String → Bool)
    (stocks : List BalanceStock) : LiqResult :=
  if stocks.isEmpty then ⟨[], 0, 0, 0⟩
  else stocks.foldl (liquidate_step sell_ok) ⟨[], 0, 0, 0⟩

/-- Open-status test for tracked positions (`"보유"` is the only Open value). -/
def is_open_status (st : String) : Bool := st == "보유"

/-! ## The scheduler (`main.py`)

`ChulAutoStock.run_forever` (lines 69–163) is an infinite loop: one iteration
reads the wall clock, dispatches at most one phase action, sleeps, and wraps
everything in `try / except KeyboardInterrupt: break / except Exception:
sleep(60)`.  We embed one loop iteration as a pure step function `tick` on an
explicit state, with the environment of the iteration (current time, whether
today is a trading day, and the outcomes of the broker calls made during the
iteration) supplied as a `TickEnv`.  `KeyboardInterrupt` is an operator
interrupt delivered from outside and is not part of the step function. -/

/-- The `phase_completed` dictionary of `main.py` (lines 60–67), together with
the two warning sub-keys inserted at lines 118 and 136.  Missing keys read
through `.get` are modelled as `false`. -/
structure Flags where
  phase0 : Bool
  phase1 : Bool
  phase2_started : Bool
  phase3 : Bool
  phase4 : Bool
  phase4_buy : Bool
  phase5 : Bool
  phase2_warn : Bool
  phase4_warn : Bool
  deriving DecidableEq, Repr

/-- The freshly rebuilt `phase_completed` dictionary (lines 60–67, 321–328,
401–408): all six completion flags false, sub-keys absent. -/
def Flags.init : Flags := ⟨false, false, false, false, false, false, false, false, false⟩

/-- The scheduler-visible state of a `ChulAutoStock` instance: the completion
flags plus the truthiness of the attributes the dispatch code branches on
(`self.auth and self.api`, `self.past_data`, `hasattr(self,
'phase2_instance')`, `self.phase4_instance`, `hasattr(self,
'sleep_announced')`). -/
structure SchedState where
  flags : Flags
  hasAuth : Bool
  hasPastData : Bool
  hasPhase2Instance : Bool
  hasPhase4Instance : Bool
  sleepAnnounced : Bool
  deriving DecidableEq, Repr

/-- The environment of one loop iteration: the observed wall-clock
`(hour, minute)`, the trading-day test, and oracles for the outcomes of the
broker interactions the iteration may perform (`Phase0Auth.run` truthy,
`Phase1PastData.run` truthy, `execute_buy_orders` returning `True`). -/
structure TickEnv where
  time : Nat × Nat
  tradingDay : Bool
  authOk : Bool
  pastDataOk : Bool
  buySuccess : Bool
  deriving DecidableEq, Repr

/-- Python tuple comparison `a < b` on `(hour, minute)` pairs. -/
def timeLt (a b : Nat × Nat) : Prop := a.1 < b.1 ∨ (a.1 = b.1 ∧ a.2 < b.2)

instance (a b : Nat × Nat) : Decidable (timeLt a b) := by
  unfold timeLt
  infer_instance

/-- Python tuple comparison `a <= b` on `(hour, minute)` pairs. -/
def timeLe (a b : Nat × Nat) : Prop := timeLt a b ∨ a = b

instance (a b : Nat × Nat) : Decidable (timeLe a b) := by
  unfold timeLe
  infer_instance

/-- 08:28 일일 초기화 (`main.py` line 48). -/
def RESET_TIME : Nat × Nat := (8, 28)
/-- 08:29 시작 (line 49). -/
def WAKE_TIME : Nat × Nat := (8, 29)
/-- 08:30 Phase 1 (line 50). -/
def PHASE1_TIME : Nat × Nat := (8, 30)
/-- 08:35 Phase 2 시작 (line 51). -/
def PHASE2_TIME : Nat × Nat := (8, 35)
/-- 08:58 Phase 3 (line 52). -/
def PHASE3_TIME : Nat × Nat := (8, 58)
/-- 09:00 장 시작 (line 53). -/
def MARKET_OPEN : Nat × Nat := (9, 0)
/-- 09:59 Phase 5 (line 54). -/
def PHASE5_TIME : Nat × Nat := (9, 59)
/-- 10:00 종료 (line 55). -/
def SLEEP_TIME : Nat × Nat := (10, 0)

/-- `daily_reset` (`main.py` 382–415): clears auth/api, past data, the phase
instances, and rebuilds `phase_completed` from scratch.  `sleep_announced` is
not touched by this method. -/
def daily_reset (s : SchedState) : SchedState :=
  { flags := Flags.init, hasAuth := false, hasPastData := false,
    hasPhase2Instance := false, hasPhase4Instance := false,
    sleepAnnounced := s.sleepAnnounced }

/-- `wake_up` (`main.py` 165–185): runs Phase 0; on a falsy auth result it
returns with the flag unset, otherwise it marks `phase0` complete. -/
def wake_up_step (s : SchedState) (e : TickEnv) : SchedState :=
  if e.authOk then
    { s with hasAuth := true, flags := { s.flags with phase0 := true } }
  else { s with hasAuth := false }

/-- `phase1_past_data` (`main.py` 187–198): stores the Phase 1 result and
marks `phase1` complete only when the result is truthy. -/
def phase1_step (s : SchedState) (e : TickEnv) : SchedState :=
  if e.pastDataOk then
    { s with hasPastData := true, flags := { s.flags with phase1 := true } }
  else { s with hasPastData := false }

/-- `phase2_monitoring` (`main.py` 200–210) followed by line 121: creates the
`phase2_instance` when absent and afterwards the caller sets
`phase2_started`. -/
def phase2_step (s : SchedState) : SchedState :=
  { s with hasPhase2Instance := true,
           flags := { s.flags with phase2_started := true } }

/-- The methods defined by `class Phase2Monitoring` (`phase2_monitoring.py`
13–221).  This is the attribute set Python consults when
`phase3_final_selection` evaluates `self.phase2_instance.send_final_result`. -/
def phase2MonitoringMethods : List String :=
  ["__init__", "run", "_get_current_price", "_send_market_summary",
   "get_market_data", "get_filtered_stocks"]

/-- `phase3_final_selection` (`main.py` 212–245) raises `AttributeError` iff
the `hasattr(self, 'phase2_instance')` guard passes and the looked-up
attribute `send_final_result` is not defined by `Phase2Monitoring`.  The
raise happens on line 216, before any state mutation, so the caught
exception leaves the scheduler state unchanged. -/
def phase3_raises (s : SchedState) : Bool :=
  s.hasPhase2Instance && !(phase2MonitoringMethods.contains "send_final_result")

/-- The selection body of `phase3_final_selection` (`main.py` 218–243), i.e.
the code that would run after a successful `send_final_result` call: the
`phase3` completion flag is assigned `True` exactly when the filtered list is
truthy and `Phase3Scoring.run` returns a truthy top list. -/
def phase3_sets_flag (log10 : ℚ → ℚ) (filtered : List Stock) : Bool :=
  !filtered.isEmpty && !(phase3_run log10 filtered).isEmpty

/-- Lines 116–118 / 134–136: print the warning once and set the warning
sub-key. -/
def warn2_step (s : SchedState) : SchedState :=
  if s.flags.phase2_warn then s
  else { s with flags := { s.flags with phase2_warn := true } }

def warn4_step (s : SchedState) : SchedState :=
  if s.flags.phase4_warn then s
  else { s with flags := { s.flags with phase4_warn := true } }

/-- The 08:59 buy branch of `phase4_position_management` (`main.py` 252–258):
`execute_buy_orders` is invoked and, only if it returns `True`, both
`phase4_buy` and `phase4` are set. -/
def buy_step (s : SchedState) (e : TickEnv) : SchedState :=
  if e.buySuccess then
    { s with flags := { s.flags with phase4_buy := true, phase4 := true } }
  else s

/-- `phase5_daily_closing` (`main.py` 272–294), restricted to its effect on
the scheduler state: sets the `phase5` flag. -/
def phase5_step (s : SchedState) : SchedState :=
  { s with flags := { s.flags with phase5 := true } }

/-- `enter_sleep_mode` (`main.py` 296–335): at exactly 10:00, unless already
announced, clears auth/past data/instances, rebuilds `phase_completed` with
every flag false, and sets `sleep_announced`; at 10:01 it deletes
`sleep_announced`; at any other time it does nothing. -/
def sleep_step (s : SchedState) (e : TickEnv) : SchedState :=
  if e.time = (10, 0) then
    if s.sleepAnnounced then s
    else
      { flags := Flags.init, hasAuth := false, hasPastData := false,
        hasPhase2Instance := false, hasPhase4Instance := false,
        sleepAnnounced := true }
  else if e.time = (10, 1) then { s with sleepAnnounced := false }
  else s

/-- Which phase action a tick performed.  `p4buy` means `execute_buy_orders`
was invoked; `p4monitor` means the 09:00–09:58 monitoring branch ran. -/
inductive PhaseAction where
  | reset | wake | p1 | p2 | p3 | p4buy | p4monitor | p5 | sleepMode
  deriving DecidableEq, Repr

/-- The outcome of one loop iteration: `halted` is the `break` on line 96
(late start); otherwise the action taken (if any), whether the iteration's
body raised an exception that was caught by the `except Exception` handler on
line 160 (after which the loop sleeps 60 s and continues), and the successor
state. -/
inductive TickResult where
  | halted
  | stepped (act : Option PhaseAction) (raised : Bool) (next : SchedState)
  deriving DecidableEq, Repr

/-- The tail of the `elif` chain of `run_forever` from line 146 on: the
10:00 sleep-mode branch, and the final wait branches which leave the state
unchanged. -/
def tick_sleep (s : SchedState) (e : TickEnv) : TickResult :=
  if timeLe SLEEP_TIME e.time then .stepped (some .sleepMode) false (sleep_step s e)
  else .stepped none false s

/-- The 09:59 branch of `run_forever` (lines 140–143).  Note: the only guard
is `self.auth and self.api`; no completion flag of any earlier phase is
consulted. -/
def tick_phase5 (s : SchedState) (e : TickEnv) : TickResult :=
  if e.time = PHASE5_TIME then
    if s.hasAuth then .stepped (some .p5) false (phase5_step s)
    else .stepped none false s
  else tick_sleep s e

/-- The 08:59 / 09:00–09:58 branch of `run_forever` (lines 130–138) combined
with the dispatch inside `phase4_position_management` (lines 247–270): at
08:59, `execute_buy_orders` is invoked iff `phase4_instance` is truthy and
`phase4_buy` is not yet set; during 09:00–09:58 the monitoring sub-branch
runs. -/
def tick_phase4 (s : SchedState) (e : TickEnv) : TickResult :=
  if (e.time.1 = 8 ∧ e.time.2 = 59) ∨
      (timeLe MARKET_OPEN e.time ∧ timeLt e.time PHASE5_TIME) then
    if s.flags.phase3 = false then .stepped none false (warn4_step s)
    else if s.hasAuth then
      if e.time.1 = 8 ∧ e.time.2 = 59 then
        if s.hasPhase4Instance ∧ s.flags.phase4_buy = false then
          .stepped (some .p4buy) false (buy_step s e)
        else .stepped none false s
      else if e.time.1 = 9 ∧ e.time.2 < 59 then
        if s.hasPhase4Instance then .stepped (some .p4monitor) false s
        else .stepped none false s
      else .stepped none false s
    else .stepped none false s
  else tick_phase5 s e

/-- The 08:58 branch of `run_forever` (lines 123–128).  The successor state
is `s` in both sub-cases of `phase3_final_selection`: when `phase2_instance`
is absent the `hasattr` guard skips the whole body, and when it is present
the missing `send_final_result` attribute raises before any mutation and the
outer handler catches it. -/
def tick_phase3 (s : SchedState) (e : TickEnv) : TickResult :=
  if e.time = PHASE3_TIME then
    if s.flags.phase2_started = false then .stepped none false s
    else if s.hasAuth then .stepped (some .p3) (phase3_raises s) s
    else .stepped none false s
  else tick_phase4 s e

/-- The 08:35–08:57 branch of `run_forever` (lines 113–121). -/
def tick_phase2 (s : SchedState) (e : TickEnv) : TickResult :=
  if timeLe PHASE2_TIME e.time ∧ timeLt e.time PHASE3_TIME then
    if s.flags.phase1 = false then .stepped none false (warn2_step s)
    else if s.hasAuth ∧ s.hasPastData then .stepped (some .p2) false (phase2_step s)
    else .stepped none false s
  else tick_phase3 s e

/-- The 08:30 branch of `run_forever` (lines 106–111). -/
def tick_phase1 (s : SchedState) (e : TickEnv) : TickResult :=
  if e.time = PHASE1_TIME then
    if s.flags.phase0 = false then .stepped none false s
    else if s.hasAuth then .stepped (some .p1) false (phase1_step s e)
    else .stepped none false s
  else tick_phase2 s e

/-- One iteration of `run_forever` (`main.py` 78–163), transcribed branch by
branch in source order: the trading-day check, the late-start `break`
(lines 91–96), the 08:28 reset, the 08:29 wake-up, then the remaining `elif`
chain via the `tick_phaseN` helpers above. -/
def tick (s : SchedState) (e : TickEnv) : TickResult :=
  if e.tradingDay = false then .stepped none false s
  else if timeLt WAKE_TIME e.time ∧ s.flags.phase0 = false then .halted
  else if e.time = RESET_TIME then .stepped (some .reset) false (daily_reset s)
  else if e.time = WAKE_TIME then .stepped (some .wake) false (wake_up_step s e)
  else tick_phase1 s e

/-- The actions performed along a run of the loop over a list of tick
environments, cut short if the loop breaks. -/
def trace_acts (s : SchedState) : List TickEnv → List (Option PhaseAction)
  | [] => []
  | e :: es =>
    match tick s e with
    | .halted => []
    | .stepped a _ n => a :: trace_acts n es

/-- Pointwise `≤` on the completion flags (`false ≤ true`): the monotonicity
order of `phase_completed` within a day. -/
def flagsLe (f g : Flags) : Prop :=
  (f.phase0 = true → g.phase0 = true) ∧
  (f.phase1 = true → g.phase1 = true) ∧
  (f.phase2_started = true → g.phase2_started = true) ∧
  (f.phase3 = true → g.phase3 = true) ∧
  (f.phase4 = true → g.phase4 = true) ∧
  (f.phase4_buy = true → g.phase4_buy = true) ∧
  (f.phase5 = true → g.phase5 = true)

/-- The facts that hold whenever a tick dispatches a given action: the
time window the action is tied to, and the predecessor completion flag its
dispatch requires (`p4buy` additionally requires `phase4_buy` to be unset).
Note the absence of any completion-flag requirement for `p5`. -/
def dispatch_gates (s : SchedState) (e : TickEnv) : Option PhaseAction → Prop
  | some .reset => e.time = RESET_TIME
  | some .wake => e.time = WAKE_TIME
  | some .p1 => e.time = PHASE1_TIME ∧ s.flags.phase0 = true
  | some .p2 =>
      (timeLe PHASE2_TIME e.time ∧ timeLt e.time PHASE3_TIME) ∧
        s.flags.phase1 = true
  | some .p3 => e.time = PHASE3_TIME ∧ s.flags.phase2_started = true
  | some .p4buy =>
      (e.time.1 = 8 ∧ e.time.2 = 59) ∧ s.flags.phase3 = true ∧
        s.flags.phase4_buy = false
  | some .p4monitor => (e.time.1 = 9 ∧ e.time.2 < 59) ∧ s.flags.phase3 = true
  | some .p5 => e.time = PHASE5_TIME
  | some .sleepMode => timeLe SLEEP_TIME e.time
  | none => True

/-- Equality of the seven completion flags (the warning sub-keys may differ). -/
def completion_flags_eq (f g : Flags) : Prop :=
  g.phase0 = f.phase0 ∧ g.phase1 = f.phase1 ∧
  g.phase2_started = f.phase2_started ∧ g.phase3 = f.phase3 ∧
  g.phase4 = f.phase4 ∧ g.phase4_buy = f.phase4_buy ∧ g.phase5 = f.phase5

/-! ## Concrete instances used by witnesses and counterexamples -/

/-- A scheduler state at 08:58 on a normal day: Phases 0–2 done, the
`phase2_instance` attribute present. -/
def c1_state : SchedState :=
  ⟨⟨true, true, true, false, false, false, false, false, false⟩,
    true, true, true, false, false⟩

def c1_env : TickEnv := ⟨(8, 58), true, true, true, true⟩

/-- A state at 09:59 with Phases 0–3 done but the `phase4` completion flag
still false (for instance because `execute_buy_orders` returned `False` all
through 08:59). -/
def c3_state : SchedState :=
  ⟨⟨true, true, true, true, false, false, false, false, false⟩,
    true, true, true, true, false⟩

def c3_env : TickEnv := ⟨(9, 59), true, true, true, true⟩

/-- A state at 08:30 with `phase0` still false (Phase 0 authentication
failed at 08:29, `wake_up` returned without setting the flag). -/
def c5_state : SchedState := ⟨Flags.init, false, false, false, false, false⟩

def c5_env : TickEnv := ⟨(8, 30), true, false, true, true⟩

def c5w_state : SchedState := ⟨Flags.init, false, false, false, false, false⟩

def c5w_env : TickEnv := ⟨(8, 45), true, false, true, true⟩

/-- A state at 09:30 in the Phase 4 window with `phase3` still false. -/
def c6_state : SchedState :=
  ⟨⟨true, true, true, false, false, false, false, false, false⟩,
    true, true, true, true, false⟩

def c6_env : TickEnv := ⟨(9, 30), true, true, true, true⟩

/-- A mid-session state at 08:40 with Phases 0–1 done. -/
def c9w_state : SchedState :=
  ⟨⟨true, true, false, false, false, false, false, false, false⟩,
    true, true, false, false, false⟩

def c9w_env : TickEnv := ⟨(8, 40), true, true, true, true⟩

/-- An end-of-session state at 10:00 with every completion flag true. -/
def c9_state : SchedState :=
  ⟨⟨true, true, true, true, true, true, true, false, false⟩,
    true, true, true, true, false⟩

def c9_env : TickEnv := ⟨(10, 0), true, true, true, true⟩

/-- A state at 08:59 ready to buy: Phases 0–3 done, `phase4_instance`
present, `phase4_buy` unset. -/
def c10_state : SchedState :=
  ⟨⟨true, true, true, true, false, false, false, false, false⟩,
    true, true, true, true, false⟩

/-- An 08:59 tick on which `execute_buy_orders` returns `False`. -/
def c10_env_fail : TickEnv := ⟨(8, 59), true, true, true, false⟩

/-- A state whose `phase4_buy` flag is already set. -/
def c10w_state : SchedState :=
  ⟨⟨true, true, true, true, true, true, false, false, false⟩,
    true, true, true, true, false⟩

def c10w_env : TickEnv := ⟨(9, 30), true, true, true, true⟩

/-- A freshly bought position: 10 shares at 100, still Open. -/
def c2_pos : Position := ⟨"삼성전자", 10, 100, 100, 0, "보유"⟩

/-- The tracked Phase 4 statuses in the C4 scenario: stock 005930 was marked
sold (its threshold sell was attempted but the order failed, cf. C2), stock
000660 is still marked Open. -/
def c4_positions : List (String × String) :=
  [("005930", "매도완료"), ("000660", "보유")]

/-- The broker balance at 09:59 in the C4 scenario: 005930 is still held
(the failed sell left the shares in the account); 000660 does not appear
(its balance entry is missing, e.g. the earlier sell of it did fill). -/
def c4_balance : List BalanceStock := [⟨"005930", "삼성전자", 3, 100, 1⟩]

/-- Eleven distinct instruments all with 등락률 3.0 (inside the 2–4 band). -/
def c7_market : List Stock :=
  ["c01", "c02", "c03", "c04", "c05", "c06", "c07", "c08", "c09", "c10",
   "c11"].map (fun c => ⟨c, c, 100, 103, 3, 1000, 103000⟩)

/-- Two candidates with identical volume 1000. -/
def c8_s1 : Stock := ⟨"005930", "삼성전자", 100, 103, 3, 1000, 103000⟩

def c8_s2 : Stock := ⟨"000660", "SK하이닉스", 200, 206, 3, 1000, 206000⟩

/-! ## Helper lemmas -/

theorem flagsLe_refl (f : Flags) : flagsLe f f := by
  unfold flagsLe
  refine ⟨?_, ?_, ?_, ?_, ?_, ?_, ?_⟩ <;> exact id

theorem wake_up_flags_mono (s : SchedState) (e : TickEnv) :
    flagsLe s.flags (wake_up_step s e).flags := by
  unfold wake_up_step
  split_ifs <;> simp [flagsLe]

theorem phase1_flags_mono (s : SchedState) (e : TickEnv) :
    flagsLe s.flags (phase1_step s e).flags := by
  unfold phase1_step
  split_ifs <;> simp [flagsLe]

theorem phase2_flags_mono (s : SchedState) :
    flagsLe s.flags (phase2_step s).flags := by
  simp [phase2_step, flagsLe]

theorem warn2_flags_mono (s : SchedState) :
    flagsLe s.flags (warn2_step s).flags := by
  unfold warn2_step
  split_ifs <;> simp [flagsLe]

theorem warn4_flags_mono (s : SchedState) :
    flagsLe s.flags (warn4_step s).flags := by
  unfold warn4_step
  split_ifs <;> simp [flagsLe]

theorem buy_flags_mono (s : SchedState) (e : TickEnv) :
    flagsLe s.flags (buy_step s e).flags := by
  unfold buy_step
  split_ifs <;> simp [flagsLe]

theorem phase5_flags_mono (s : SchedState) :
    flagsLe s.flags (phase5_step s).flags := by
  simp [phase5_step, flagsLe]

theorem tick_sleep_flags_mono (s : SchedState) (e : TickEnv)
    (a : Option PhaseAction) (r : Bool) (n : SchedState)
    (h : tick_sleep s e = .stepped a r n) (hs : ¬ timeLe SLEEP_TIME e.time) :
    flagsLe s.flags n.flags := by
  unfold tick_sleep at h
  split_ifs at h
  injection h with h1 h2 h3
  subst h3
  exact flagsLe_refl _

theorem tick_phase5_flags_mono (s : SchedState) (e : TickEnv)
    (a : Option PhaseAction) (r : Bool) (n : SchedState)
    (h : tick_phase5 s e = .stepped a r n) (hs : ¬ timeLe SLEEP_TIME e.time) :
    flagsLe s.flags n.flags := by
  unfold tick_phase5 at h
  split_ifs at h
  all_goals try exact tick_sleep_flags_mono s e a r n h hs
  all_goals (injection h with h1 h2 h3; subst h3)
  · exact phase5_flags_mono s
  · exact flagsLe_refl _

theorem tick_phase4_flags_mono (s : SchedState) (e : TickEnv)
    (a : Option PhaseAction) (r : Bool) (n : SchedState)
    (h : tick_phase4 s e = .stepped a r n) (hs : ¬ timeLe SLEEP_TIME e.time) :
    flagsLe s.flags n.flags := by
  unfold tick_phase4 at h
  split_ifs at h
  all_goals try exact tick_phase5_flags_mono s e a r n h hs
  all_goals (injection h with h1 h2 h3; subst h3)
  all_goals
    first
      | exact warn4_flags_mono s
      | exact buy_flags_mono s e
      | exact flagsLe_refl _

theorem tick_phase3_flags_mono (s : SchedState) (e : TickEnv)
    (a : Option PhaseAction) (r : Bool) (n : SchedState)
    (h : tick_phase3 s e = .stepped a r n) (hs : ¬ timeLe SLEEP_TIME e.time) :
    flagsLe s.flags n.flags := by
  unfold tick_phase3 at h
  split_ifs at h
  all_goals try exact tick_phase4_flags_mono s e a r n h hs
  all_goals (injection h with h1 h2 h3; subst h3)
  all_goals exact flagsLe_refl _

theorem tick_phase2_flags_mono (s : SchedState) (e : TickEnv)
    (a : Option PhaseAction) (r : Bool) (n : SchedState)
    (h : tick_phase2 s e = .stepped a r n) (hs : ¬ timeLe SLEEP_TIME e.time) :
    flagsLe s.flags n.flags := by
  unfold tick_phase2 at h
  split_ifs at h
  all_goals try exact tick_phase3_flags_mono s e a r n h hs
  all_goals (injection h with h1 h2 h3; subst h3)
  all_goals
    first
      | exact warn2_flags_mono s
      | exact phase2_flags_mono s
      | exact flagsLe_refl _

theorem tick_phase1_flags_mono (s : SchedState) (e : TickEnv)
    (a : Option PhaseAction) (r : Bool) (n : SchedState)
    (h : tick_phase1 s e = .stepped a r n) (hs : ¬ timeLe SLEEP_TIME e.time) :
    flagsLe s.flags n.flags := by
  unfold tick_phase1 at h
  split_ifs at h
  all_goals try exact tick_phase2_flags_mono s e a r n h hs
  all_goals (injection h with h1 h2 h3; subst h3)
  all_goals
    first
      | exact phase1_flags_mono s e
      | exact flagsLe_refl _

/-- Core monotonicity fact about one scheduler iteration: at any tick whose
time is neither the 08:28 daily-reset minute nor at/after the 10:00 sleep
boundary, every completion flag can only go from `false` to `true`, never
back. -/
theorem tick_flags_mono (s : SchedState) (e : TickEnv) (a : Option PhaseAction)
    (r : Bool) (n : SchedState) (h : tick s e = .stepped a r n)
    (hr : e.time ≠ RESET_TIME) (hs : ¬ timeLe SLEEP_TIME e.time) :
    flagsLe s.flags n.flags := by
  unfold tick at h
  split_ifs at h
  all_goals try exact tick_phase1_flags_mono s e a r n h hs
  all_goals (injection h with h1 h2 h3; subst h3)
  all_goals
    first
      | exact wake_up_flags_mono s e
      | exact flagsLe_refl _

theorem tick_sleep_ne_halted (s : SchedState) (e : TickEnv) :
    tick_sleep s e ≠ .halted := by
  unfold tick_sleep
  split_ifs <;> simp

theorem tick_phase5_ne_halted (s : SchedState) (e : TickEnv) :
    tick_phase5 s e ≠ .halted := by
  unfold tick_phase5
  split_ifs <;> first | exact tick_sleep_ne_halted s e | simp

theorem tick_phase4_ne_halted (s : SchedState) (e : TickEnv) :
    tick_phase4 s e ≠ .halted := by
  unfold tick_phase4
  split_ifs <;> first | exact tick_phase5_ne_halted s e | simp

theorem tick_phase3_ne_halted (s : SchedState) (e : TickEnv) :
    tick_phase3 s e ≠ .halted := by
  unfold tick_phase3
  split_ifs <;> first | exact tick_phase4_ne_halted s e | simp

theorem tick_phase2_ne_halted (s : SchedState) (e : TickEnv) :
    tick_phase2 s e ≠ .halted := by
  unfold tick_phase2
  split_ifs <;> first | exact tick_phase3_ne_halted s e | simp

theorem tick_phase1_ne_halted (s : SchedState) (e : TickEnv) :
    tick_phase1 s e ≠ .halted := by
  unfold tick_phase1
  split_ifs <;> first | exact tick_phase2_ne_halted s e | simp

/-- The loop `break`s (other than by operator interrupt) exactly under the
late-start condition of `main.py` lines 91–96: a trading day, a time strictly
past 08:29, and the `phase0` completion flag still false. -/
theorem tick_halted_iff (s : SchedState) (e : TickEnv) :
    tick s e = .halted ↔
      e.tradingDay = true ∧ timeLt WAKE_TIME e.time ∧ s.flags.phase0 = false := by
  unfold tick
  split_ifs with h1 h2 h3 h4
  · simp [h1]
  · simp_all
  · simp_all
  · simp_all
  · have hne := tick_phase1_ne_halted s e
    simp_all

theorem tick_sleep_gates (s : SchedState) (e : TickEnv) (a : Option PhaseAction)
    (r : Bool) (n : SchedState) (h : tick_sleep s e = .stepped a r n) :
    dispatch_gates s e a := by
  unfold tick_sleep at h
  split_ifs at h with ht
  · injection h with h1 h2 h3
    subst h1
    exact ht
  · injection h with h1 h2 h3
    subst h1
    trivial

theorem tick_phase5_gates (s : SchedState) (e : TickEnv) (a : Option PhaseAction)
    (r : Bool) (n : SchedState) (h : tick_phase5 s e = .stepped a r n) :
    dispatch_gates s e a := by
  unfold tick_phase5 at h
  split_ifs at h with ht ha
  · injection h with h1 h2 h3
    subst h1
    exact ht
  · injection h with h1 h2 h3
    subst h1
    trivial
  · exact tick_sleep_gates s e a r n h

theorem tick_phase4_gates (s : SchedState) (e : TickEnv) (a : Option PhaseAction)
    (r : Bool) (n : SchedState) (h : tick_phase4 s e = .stepped a r n) :
    dispatch_gates s e a := by
  unfold tick_phase4 at h
  split_ifs at h with hw hp3 ha h859 hbuy h9 hinst
  all_goals try exact tick_phase5_gates s e a r n h
  all_goals (injection h with h1 h2 h3; subst h1)
  all_goals try trivial
  · exact ⟨h859, by simpa using hp3, hbuy.2⟩
  · exact ⟨h9, by simpa using hp3⟩

theorem tick_phase3_gates (s : SchedState) (e : TickEnv) (a : Option PhaseAction)
    (r : Bool) (n : SchedState) (h : tick_phase3 s e = .stepped a r n) :
    dispatch_gates s e a := by
  unfold tick_phase3 at h
  split_ifs at h with ht hp2 ha
  all_goals try exact tick_phase4_gates s e a r n h
  all_goals (injection h with h1 h2 h3; subst h1)
  all_goals try trivial
  · exact ⟨ht, by simpa using hp2⟩

theorem tick_phase2_gates (s : SchedState) (e : TickEnv) (a : Option PhaseAction)
    (r : Bool) (n : SchedState) (h : tick_phase2 s e = .stepped a r n) :
    dispatch_gates s e a := by
  unfold tick_phase2 at h
  split_ifs at h with hw hp1 hap
  all_goals try exact tick_phase3_gates s e a r n h
  all_goals (injection h with h1 h2 h3; subst h1)
  all_goals try trivial
  · exact ⟨hw, by simpa using hp1⟩

theorem tick_phase1_gates (s : SchedState) (e : TickEnv) (a : Option PhaseAction)
    (r : Bool) (n : SchedState) (h : tick_phase1 s e = .stepped a r n) :
    dispatch_gates s e a := by
  unfold tick_phase1 at h
  split_ifs at h with ht hp0 ha
  all_goals try exact tick_phase2_gates s e a r n h
  all_goals (injection h with h1 h2 h3; subst h1)
  all_goals try trivial
  · exact ⟨ht, by simpa using hp0⟩

/-- Every dispatched action satisfies its gate: Phase 1 requires `phase0`,
Phase 2 requires `phase1`, Phase 3 requires `phase2_started`, both Phase 4
sub-actions require `phase3` (and the buy additionally requires
`phase4_buy = false`); `p5`, `reset`, `wake` and `sleepMode` require no
completion flag, and every action carries its time window. -/
theorem tick_gates (s : SchedState) (e : TickEnv) (a : Option PhaseAction)
    (r : Bool) (n : SchedState) (h : tick s e = .stepped a r n) :
    dispatch_gates s e a := by
  unfold tick at h
  split_ifs at h with htd hlate hreset hwake
  all_goals try exact tick_phase1_gates s e a r n h
  all_goals (injection h with h1 h2 h3; subst h1)
  all_goals trivial

theorem completion_flags_eq_refl (f : Flags) : completion_flags_eq f f := by
  exact ⟨rfl, rfl, rfl, rfl, rfl, rfl, rfl⟩

theorem warn2_completion (s : SchedState) :
    completion_flags_eq s.flags (warn2_step s).flags := by
  unfold warn2_step
  split_ifs <;> exact ⟨rfl, rfl, rfl, rfl, rfl, rfl, rfl⟩

theorem warn4_completion (s : SchedState) :
    completion_flags_eq s.flags (warn4_step s).flags := by
  unfold warn4_step
  split_ifs <;> exact ⟨rfl, rfl, rfl, rfl, rfl, rfl, rfl⟩

theorem tick_sleep_none (s : SchedState) (e : TickEnv) (r : Bool)
    (n : SchedState) (h : tick_sleep s e = .stepped none r n) :
    completion_flags_eq s.flags n.flags := by
  unfold tick_sleep at h
  split_ifs at h
  all_goals injection h with h1 h2 h3
  all_goals try exact Option.noConfusion h1
  subst h3
  exact completion_flags_eq_refl _

theorem tick_phase5_none (s : SchedState) (e : TickEnv) (r : Bool)
    (n : SchedState) (h : tick_phase5 s e = .stepped none r n) :
    completion_flags_eq s.flags n.flags := by
  unfold tick_phase5 at h
  split_ifs at h
  all_goals try exact tick_sleep_none s e r n h
  all_goals injection h with h1 h2 h3
  all_goals try exact Option.noConfusion h1
  all_goals subst h3
  all_goals exact completion_flags_eq_refl _

theorem tick_phase4_none (s : SchedState) (e : TickEnv) (r : Bool)
    (n : SchedState) (h : tick_phase4 s e = .stepped none r n) :
    completion_flags_eq s.flags n.flags := by
  unfold tick_phase4 at h
  split_ifs at h
  all_goals try exact tick_phase5_none s e r n h
  all_goals injection h with h1 h2 h3
  all_goals try exact Option.noConfusion h1
  all_goals subst h3
  all_goals first
    | exact warn4_completion s
    | exact completion_flags_eq_refl _

theorem tick_phase3_none (s : SchedState) (e : TickEnv) (r : Bool)
    (n : SchedState) (h : tick_phase3 s e = .stepped none r n) :
    completion_flags_eq s.flags n.flags := by
  unfold tick_phase3 at h
  split_ifs at h
  all_goals try exact tick_phase4_none s e r n h
  all_goals injection h with h1 h2 h3
  all_goals try exact Option.noConfusion h1
  all_goals subst h3
  all_goals exact completion_flags_eq_refl _

theorem tick_phase2_none (s : SchedState) (e : TickEnv) (r : Bool)
    (n : SchedState) (h : tick_phase2 s e = .stepped none r n) :
    completion_flags_eq s.flags n.flags := by
  unfold tick_phase2 at h
  split_ifs at h
  all_goals try exact tick_phase3_none s e r n h
  all_goals injection h with h1 h2 h3
  all_goals try exact Option.noConfusion h1
  all_goals subst h3
  all_goals first
    | exact warn2_completion s
    | exact completion_flags_eq_refl _

theorem tick_phase1_none (s : SchedState) (e : TickEnv) (r : Bool)
    (n : SchedState) (h : tick_phase1 s e = .stepped none r n) :
    completion_flags_eq s.flags n.flags := by
  unfold tick_phase1 at h
  split_ifs at h
  all_goals try exact tick_phase2_none s e r n h
  all_goals injection h with h1 h2 h3
  all_goals try exact Option.noConfusion h1
  all_goals subst h3
  all_goals exact completion_flags_eq_refl _

/-- A tick that dispatches no phase action leaves every completion flag
unchanged (only warning sub-keys may be added). -/
theorem tick_none_completion (s : SchedState) (e : TickEnv) (r : Bool)
    (n : SchedState) (h : tick s e = .stepped none r n) :
    completion_flags_eq s.flags n.flags := by
  unfold tick at h
  split_ifs at h
  all_goals try exact tick_phase1_none s e r n h
  all_goals injection h with h1 h2 h3
  all_goals try exact Option.noConfusion h1
  all_goals subst h3
  all_goals exact completion_flags_eq_refl _

/-! ## Auxiliary lemmas for the pure phase functions -/

theorem liquidate_fold_orders (sell_ok : String → Bool) :
    ∀ (l : List BalanceStock) (acc : LiqResult),
      (l.foldl (liquidate_step sell_ok) acc).orders =
        acc.orders ++
          ((l.filter (fun st => decide (0 < st.qty))).map (fun st => st.code))
  | [], acc => by simp
  | st :: rest, acc => by
    rw [List.foldl_cons,
      liquidate_fold_orders sell_ok rest (liquidate_step sell_ok acc st),
      List.filter_cons]
    by_cases hq : st.qty ≤ 0
    · have h0 : decide (0 < st.qty) = false := by
        simp only [decide_eq_false_iff_not, not_lt]
        exact hq
      simp [liquidate_step, hq, h0]
    · have h0 : decide (0 < st.qty) = true := by
        simp only [decide_eq_true_eq]
        omega
      by_cases hok : sell_ok st.code
      · simp [liquidate_step, hq, hok, h0]
      · simp [liquidate_step, hq, hok, h0]

theorem foldl_max_volume_const (v : ℚ) :
    ∀ (l : List Stock), (∀ x ∈ l, x.volume = v) →
      l.foldl (fun a x => max a x.volume) v = v
  | [], _ => rfl
  | x :: xs, h => by
    have hx : x.volume = v := h x (List.mem_cons_self x xs)
    rw [List.foldl_cons, hx, max_self]
    exact foldl_max_volume_const v xs (fun y hy => h y (List.mem_cons_of_mem x hy))

theorem foldl_min_volume_const (v : ℚ) :
    ∀ (l : List Stock), (∀ x ∈ l, x.volume = v) →
      l.foldl (fun a x => min a x.volume) v = v
  | [], _ => rfl
  | x :: xs, h => by
    have hx : x.volume = v := h x (List.mem_cons_self x xs)
    rw [List.foldl_cons, hx, min_self]
    exact foldl_min_volume_const v xs (fun y hy => h y (List.mem_cons_of_mem x hy))

theorem max_volume_const (v : ℚ) (l : List Stock) (h : ∀ x ∈ l, x.volume = v)
    (hne : l ≠ []) : max_volume l = v := by
  cases l with
  | nil => exact absurd rfl hne
  | cons s rest =>
    simp only [max_volume]
    rw [h s (List.mem_cons_self s rest)]
    exact foldl_max_volume_const v rest
      (fun y hy => h y (List.mem_cons_of_mem s hy))

theorem min_volume_const (v : ℚ) (l : List Stock) (h : ∀ x ∈ l, x.volume = v)
    (hne : l ≠ []) : min_volume l = v := by
  cases l with
  | nil => exact absurd rfl hne
  | cons s rest =>
    simp only [min_volume]
    rw [h s (List.mem_cons_self s rest)]
    exact foldl_min_volume_const v rest
      (fun y hy => h y (List.mem_cons_of_mem s hy))

/-! ## The claims -/

/-- Claim C1 (confirmed).  `Phase2Monitoring` defines no method named
`send_final_result`, so in every scheduler state in which `phase2_instance`
has been created, the 08:58 dispatch of `phase3_final_selection` raises
`AttributeError` at the `self.phase2_instance.send_final_result()` call
(line 216 of `main.py`); the exception is caught by the outer loop handler,
the call never reaches scoring, and the state — in particular the `phase3`
completion flag — is unchanged by the tick. -/
theorem claim_C1_phase3_attribute_error :
    phase2MonitoringMethods.contains "send_final_result" = false ∧
    ∀ (s : SchedState) (e : TickEnv), e.tradingDay = true →
      e.time = PHASE3_TIME → s.flags.phase0 = true →
      s.flags.phase2_started = true → s.hasAuth = true →
      s.hasPhase2Instance = true →
      tick s e = .stepped (some .p3) true s := by
  refine ⟨by decide, ?_⟩
  intro s e htd ht h0 h2s ha hp2
  obtain ⟨⟨f0, f1, f2s, f3, f4, f4b, f5, w2, w4⟩, au, pd, p2i, p4i, sa⟩ := s
  obtain ⟨tm, td, ao, pdo, bs⟩ := e
  simp only at htd ht h0 h2s ha hp2
  subst htd ht h0 h2s ha hp2
  rfl

/-- Claim C1 witness: the theorem applied at a concrete 08:58 state. -/
theorem claim_C1_witness :
    tick c1_state c1_env = .stepped (some .p3) true c1_state :=
  claim_C1_phase3_attribute_error.2 c1_state c1_env rfl rfl rfl rfl rfl rfl

/-- Claim C2 counterexample.  A monitoring poll on an Open position bought at
100 whose quote is 105 (return +5 % ≥ target +4 %) with a failing sell order
(`sell_ok = false`): the resulting status is `"매도완료"`, not `"보유"`, the
trade history records nothing, and the next poll skips the position — the
claim that a failed sell leaves the position Open for re-attempt is false. -/
theorem claim_C2_counterexample :
    c2_pos.status = "보유" ∧
    (monitor_poll_step false 4 (-2) "005930" c2_pos (some 105) []).1.status =
      "매도완료" ∧
    ¬ (monitor_poll_step false 4 (-2) "005930" c2_pos (some 105) []).1.status =
      "보유" ∧
    (monitor_poll_step false 4 (-2) "005930" c2_pos (some 105) []).2 = [] ∧
    monitor_skips (monitor_poll_step false 4 (-2) "005930" c2_pos
      (some 105) []).1 = true := by
  have h1 : monitor_poll_step false 4 (-2) "005930" c2_pos (some 105) [] =
      (⟨"삼성전자", 10, 100, 105, 5, "매도완료"⟩, []) := by
    unfold monitor_poll_step monitor_skips c2_pos check_sell_conditions
      execute_sell
    norm_num
  rw [h1]
  refine ⟨rfl, rfl, by decide, rfl, rfl⟩

/-- Claim C2 (corrected).  `_check_sell_conditions` assigns the Closed status
unconditionally: the resulting position does not depend on whether the sell
order succeeded, a crossed profit target yields status `"매도완료"` and a
crossed stop loss yields `"손절완료"` even when `sell_ok = false`, and the
closed position is skipped by every subsequent monitoring poll (so a failed
sell is never re-attempted). -/
theorem claim_C2_amended (sell_ok : Bool) (t sl rate : ℚ) (code : String)
    (pos : Position) (hist : List TradeRecord) :
    ((check_sell_conditions sell_ok t sl code pos rate hist).1 =
      (check_sell_conditions true t sl code pos rate hist).1) ∧
    (t ≤ rate →
      (check_sell_conditions sell_ok t sl code pos rate hist).1.status =
        "매도완료" ∧
      monitor_skips (check_sell_conditions sell_ok t sl code pos rate
        hist).1 = true) ∧
    (¬ t ≤ rate → rate ≤ sl →
      (check_sell_conditions sell_ok t sl code pos rate hist).1.status =
        "손절완료" ∧
      monitor_skips (check_sell_conditions sell_ok t sl code pos rate
        hist).1 = true) := by
  unfold check_sell_conditions
  refine ⟨?_, ?_, ?_⟩
  · split_ifs <;> rfl
  · intro hle
    rw [if_pos hle]
    exact ⟨rfl, rfl⟩
  · intro hnle hsl
    rw [if_neg hnle, if_pos hsl]
    exact ⟨rfl, rfl⟩

/-- Claim C2 witness: the amended theorem applied at a concrete input. -/
theorem claim_C2_witness :
    (check_sell_conditions false 4 (-2) "005930" c2_pos 5 []).1.status =
      "매도완료" :=
  ((claim_C2_amended false 4 (-2) 5 "005930" c2_pos []).2.1 (by norm_num)).1

/-- Claim C3 counterexample.  At 09:59, in a state whose `phase4` completion
flag is false, the Phase 5 closing action is dispatched anyway (the only
guard on line 142 of `main.py` is `self.auth and self.api`): the claimed
"Phase 5 requires the Phase 4 completion flag" is false on the code. -/
theorem claim_C3_counterexample :
    c3_state.flags.phase4 = false ∧
    tick c3_state c3_env =
      .stepped (some .p5) false
        ⟨⟨true, true, true, true, false, false, true, false, false⟩,
          true, true, true, true, false⟩ :=
  ⟨rfl, rfl⟩

/-- Claim C3 (corrected).  The gating holds for Phases 1–4: a tick can only
dispatch the Phase 1 action when `phase0` is set, Phase 2 when `phase1` is
set, Phase 3 when `phase2_started` is set, and either Phase 4 sub-action
when `phase3` is set.  (Phase 5 has no such gate — see the
counterexample.) -/
theorem claim_C3_amended (s : SchedState) (e : TickEnv) (a : PhaseAction)
    (r : Bool) (n : SchedState) (h : tick s e = .stepped (some a) r n) :
    (a = .p1 → s.flags.phase0 = true) ∧
    (a = .p2 → s.flags.phase1 = true) ∧
    (a = .p3 → s.flags.phase2_started = true) ∧
    (a = .p4buy → s.flags.phase3 = true) ∧
    (a = .p4monitor → s.flags.phase3 = true) := by
  have hg := tick_gates s e (some a) r n h
  refine ⟨?_, ?_, ?_, ?_, ?_⟩ <;> rintro rfl
  · exact hg.2
  · exact hg.2
  · exact hg.2
  · exact hg.2.1
  · exact hg.2

/-- Claim C3 witness: the amended theorem applied to a concrete 08:30 tick
that dispatches Phase 1. -/
theorem claim_C3_witness : c9w_state.flags.phase0 = true :=
  (claim_C3_amended c9w_state ⟨(8, 30), true, true, true, true⟩ .p1 false
    (phase1_step c9w_state ⟨(8, 30), true, true, true, true⟩) rfl).1 rfl

/-- Claim C5 counterexample.  After a Phase 0 authentication failure at
08:29 (all flags false), the very next tick at 08:30 hits the late-start
check of `main.py` lines 91–96 and `break`s: the loop terminates instead of
remaining in a failed/idle state until the next Daily Reset, and an
operator interrupt is not the only way the loop stops. -/
theorem claim_C5_counterexample :
    c5_state.flags.phase0 = false ∧ tick c5_state c5_env = .halted :=
  ⟨rfl, rfl⟩

/-- Claim C5 (corrected).  The loop `break`s (other than on operator
interrupt) exactly when a trading-day tick strictly after 08:29 finds the
`phase0` flag unset; in particular a Phase 0 authentication failure leads to
loop termination at the next tick past 08:29 rather than to an idle wait
until the Daily Reset.  (Uncaught exceptions are caught by the
`except Exception` handler and the loop continues after a 60 s cooldown —
in the model every such iteration is a `stepped` result, never `halted`.) -/
theorem claim_C5_amended (s : SchedState) (e : TickEnv) :
    tick s e = .halted ↔
      e.tradingDay = true ∧ timeLt WAKE_TIME e.time ∧
        s.flags.phase0 = false :=
  tick_halted_iff s e

/-- Claim C5 witness: the amended theorem applied at a concrete late-start
state, in the reverse direction. -/
theorem claim_C5_witness : tick c5w_state c5w_env = .halted :=
  (claim_C5_amended c5w_state c5w_env).mpr ⟨rfl, by decide, rfl⟩

/-- Claim C6 counterexample.  With an empty filtered set the Phase 3
selection logic leaves the `phase3` flag false
(`phase3_sets_flag log10 [] = false`), and a 09:30 tick in that situation
dispatches no Phase 4 action at all — it merely records the warning sub-key.
The day does not "proceed to Phase 4"; Phase 4 is blocked. -/
theorem claim_C6_counterexample :
    phase3_sets_flag (fun x => x) [] = false ∧
    tick c6_state c6_env =
      .stepped none false
        ⟨⟨true, true, true, false, false, false, false, false, true⟩,
          true, true, true, true, false⟩ :=
  ⟨rfl, rfl⟩

/-- Claim C6 (corrected).  When Phase 2's final filtered set is empty the
selection body never sets the `phase3` flag, and any tick in the Phase 4
window (08:59 or 09:00–09:58) with `phase3 = false` dispatches no action and
leaves the completion flags unchanged: Phase 4 is blocked for the day (so in
particular no buy action ever runs), rather than proceeding with an empty
selection. -/
theorem claim_C6_amended :
    (∀ log10 : ℚ → ℚ, phase3_sets_flag log10 [] = false) ∧
    (∀ (s : SchedState) (e : TickEnv) (a : Option PhaseAction) (r : Bool)
        (n : SchedState), tick s e = .stepped a r n →
      ((e.time.1 = 8 ∧ e.time.2 = 59) ∨
        (timeLe MARKET_OPEN e.time ∧ timeLt e.time PHASE5_TIME)) →
      s.flags.phase3 = false →
      a = none ∧ n.flags.phase3 = false ∧
        n.flags.phase4 = s.flags.phase4 ∧
        n.flags.phase4_buy = s.flags.phase4_buy) := by
  constructor
  · intro log10
    rfl
  · intro s e a r n h hw hp3
    have hnone : a = none := by
      rcases a with _ | act
      · rfl
      · exfalso
        have hg := tick_gates s e (some act) r n h
        cases act
        case reset =>
          have hgt : e.time = RESET_TIME := hg
          rw [hgt] at hw
          exact absurd hw (by decide)
        case wake =>
          have hgt : e.time = WAKE_TIME := hg
          rw [hgt] at hw
          exact absurd hw (by decide)
        case p1 =>
          have hgt : e.time = PHASE1_TIME := hg.1
          rw [hgt] at hw
          exact absurd hw (by decide)
        case p2 =>
          have hg2 := hg.1
          simp only [timeLe, timeLt, PHASE2_TIME, PHASE3_TIME, MARKET_OPEN,
            PHASE5_TIME, Prod.ext_iff] at hg2 hw
          omega
        case p3 =>
          have hgt : e.time = PHASE3_TIME := hg.1
          rw [hgt] at hw
          exact absurd hw (by decide)
        case p4buy =>
          have hcontr := hg.2.1
          rw [hp3] at hcontr
          exact Bool.noConfusion hcontr
        case p4monitor =>
          have hcontr := hg.2
          rw [hp3] at hcontr
          exact Bool.noConfusion hcontr
        case p5 =>
          have hgt : e.time = PHASE5_TIME := hg
          rw [hgt] at hw
          exact absurd hw (by decide)
        case sleepMode =>
          have hg2 : timeLe SLEEP_TIME e.time := hg
          simp only [timeLe, timeLt, SLEEP_TIME, MARKET_OPEN, PHASE5_TIME,
            Prod.ext_iff] at hg2 hw
          omega
    subst hnone
    have hc := tick_none_completion s e r n h
    refine ⟨rfl, ?_, hc.2.2.2.2.1, hc.2.2.2.2.2.1⟩
    rw [hc.2.2.2.1, hp3]

/-- Claim C6 witness: the amended theorem applied at a concrete 09:30 tick
with `phase3` unset. -/
theorem claim_C6_witness : (warn4_step c6_state).flags.phase3 = false :=
  (claim_C6_amended.2 c6_state c6_env none false (warn4_step c6_state) rfl
    (by decide) rfl).2.1

/-- Claim C7 counterexample.  Eleven instruments all inside the band:
`get_filtered_stocks` returns all eleven — more than the configured top 10
(and more than the top 3 later selected) — so the pass set is not capped at
any configured top-K. -/
theorem claim_C7_counterexample :
    (∀ s ∈ c7_market, 2 ≤ s.rate ∧ s.rate ≤ 4) ∧
    (get_filtered_stocks c7_market 2 4).length = 11 ∧
    ¬ (get_filtered_stocks c7_market 2 4).length ≤ 10 ∧
    ¬ (get_filtered_stocks c7_market 2 4).length ≤ 3 := by
  decide

/-- Claim C7 (corrected).  The pass set of `get_filtered_stocks` is exactly
the set of market-data records whose 등락률 lies in `[lo, hi]` — membership
is equivalent to in-band membership in the market data, and the result is an
order-preserving sublist of the market data — but no size cap is applied
(the truncation to the top 3 happens only later, inside Phase 3). -/
theorem claim_C7_amended (md : List Stock) (lo hi : ℚ) :
    (∀ s : Stock, s ∈ get_filtered_stocks md lo hi ↔
      s ∈ md ∧ lo ≤ s.rate ∧ s.rate ≤ hi) ∧
    (get_filtered_stocks md lo hi).Sublist md := by
  constructor
  · intro s
    simp [get_filtered_stocks, in_band, List.mem_filter, and_assoc]
  · exact List.filter_sublist md

/-- Claim C7 witness: the membership equivalence applied at a concrete
stock and band. -/
theorem claim_C7_witness : c8_s1 ∈ get_filtered_stocks [c8_s1] 2 4 :=
  ((claim_C7_amended [c8_s1] 2 4).1 c8_s1).mpr
    ⟨by decide, by decide, by decide⟩

/-- Claim C8 counterexample.  Two candidates with identical volume 1000:
the volume sub-score computed through `_normalize_log` is `0` for both —
`_normalize_log` returns `0` (not `0.5`) whenever `max_val <= min_val` — so
the claimed neutral value `0.5` is wrong (it is plain `_normalize`, not
`_normalize_log`, that returns `0.5` in the degenerate case). -/
theorem claim_C8_counterexample :
    volume_score (fun x => x) [c8_s1, c8_s2] c8_s1 = 0 ∧
    volume_score (fun x => x) [c8_s1, c8_s2] c8_s2 = 0 ∧
    normalize_log (fun x => x) 1000 1000 1000 = 0 ∧
    ¬ normalize_log (fun x => x) 1000 1000 1000 = 1/2 ∧
    normalize 1000 1000 1000 = 1/2 := by
  norm_num [volume_score, normalize_log, normalize, min_volume, max_volume,
    c8_s1, c8_s2]

/-- Claim C8 (corrected).  When every candidate has the same volume the
volume sub-score of each candidate is `0` (never NaN and never an error —
the function is total): the degenerate `max_val <= min_val` guard of
`_normalize_log` returns `0`, independent of the `log10` interpretation. -/
theorem claim_C8_amended (log10 : ℚ → ℚ) (stocks : List Stock) (s : Stock)
    (v : ℚ) (hall : ∀ x ∈ stocks, x.volume = v) (hs : s ∈ stocks) :
    volume_score log10 stocks s = 0 := by
  have hne : stocks ≠ [] := List.ne_nil_of_mem hs
  unfold volume_score normalize_log
  rw [max_volume_const v stocks hall hne, min_volume_const v stocks hall hne,
    if_pos (Or.inl le_rfl)]
  ring

/-- Claim C8 witness: the amended theorem applied at the concrete
identical-volume pair. -/
theorem claim_C8_witness :
    volume_score (fun x => x) [c8_s1, c8_s2] c8_s2 = 0 :=
  claim_C8_amended (fun x => x) [c8_s1, c8_s2] c8_s2 1000 (by decide)
    (by decide)

/-- Claim C9 counterexample.  At 10:00 `enter_sleep_mode` rebuilds
`phase_completed` with every flag false: a completion flag (`phase5`, set
true at 09:59) is reset by an event that is not the 08:28 Daily Reset,
before any next Daily Reset occurs. -/
theorem claim_C9_counterexample :
    c9_env.time ≠ RESET_TIME ∧ c9_state.flags.phase5 = true ∧
    tick c9_state c9_env =
      .stepped (some .sleepMode) false
        ⟨Flags.init, false, false, false, false, true⟩ ∧
    Flags.init.phase5 = false := by
  exact ⟨by decide, rfl, rfl, rfl⟩

/-- Claim C9 (corrected).  Completion flags are monotonic non-decreasing on
every tick whose time is neither the 08:28 Daily Reset minute nor at/after
the 10:00 sleep boundary; besides the Daily Reset, the 10:00 sleep-mode
entry also resets every completion flag to false (see the
counterexample). -/
theorem claim_C9_amended (s : SchedState) (e : TickEnv)
    (a : Option PhaseAction) (r : Bool) (n : SchedState)
    (h : tick s e = .stepped a r n) (hr : e.time ≠ RESET_TIME)
    (hs : ¬ timeLe SLEEP_TIME e.time) : flagsLe s.flags n.flags :=
  tick_flags_mono s e a r n h hr hs

/-- Claim C9 witness: the amended theorem applied at a concrete 08:40 tick
dispatching Phase 2. -/
theorem claim_C9_witness :
    flagsLe c9w_state.flags (phase2_step c9w_state).flags :=
  claim_C9_amended c9w_state c9w_env (some .p2) false (phase2_step c9w_state)
    rfl (by decide) (by decide)

/-- Claim C10 counterexample.  An 08:59 tick on which `execute_buy_orders`
returns `False` leaves the state unchanged (`phase4_buy` stays false), so
the immediately following tick in the same 08:59 minute invokes
`execute_buy_orders` again: a trace with two ticks shows two invocations in
the same day, refuting "attempted at most once per day". -/
theorem claim_C10_counterexample :
    tick c10_state c10_env_fail = .stepped (some .p4buy) false c10_state ∧
    trace_acts c10_state [c10_env_fail, c10_env_fail] =
      [some PhaseAction.p4buy, some PhaseAction.p4buy] :=
  ⟨rfl, rfl⟩

/-- Claim C10 (corrected).  `execute_buy_orders` is only ever invoked while
`phase4_buy` is false, and once `phase4_buy` is true (i.e. after a
*successful* attempt) no later tick of the same day (no daily-reset tick, no
sleep tick) invokes it again; but a *failed* attempt leaves `phase4_buy`
false and is re-attempted on later 08:59 ticks (see the counterexample), so
"at most one attempt per day" holds only for successful attempts. -/
theorem claim_C10_amended :
    (∀ (s : SchedState) (e : TickEnv) (r : Bool) (n : SchedState),
      tick s e = .stepped (some .p4buy) r n → s.flags.phase4_buy = false) ∧
    (∀ (envs : List TickEnv) (s : SchedState), s.flags.phase4_buy = true →
      (∀ e ∈ envs, e.time ≠ RESET_TIME ∧ ¬ timeLe SLEEP_TIME e.time) →
      (some PhaseAction.p4buy) ∉ trace_acts s envs) := by
  constructor
  · intro s e r n h
    exact (tick_gates s e (some .p4buy) r n h).2.2
  · intro envs
    induction envs with
    | nil =>
      intro s hflag hcond
      simp [trace_acts]
    | cons e es ih =>
      intro s hflag hcond
      unfold trace_acts
      cases htick : tick s e with
      | halted => simp
      | stepped a r n =>
        intro hmem
        rcases List.mem_cons.mp hmem with heq | hmem2
        · have hg := tick_gates s e a r n htick
          rw [← heq] at hg
          have hfalse := hg.2.2
          rw [hflag] at hfalse
          exact Bool.noConfusion hfalse
        · have hce := hcond e (List.mem_cons_self e es)
          have hmono := tick_flags_mono s e a r n htick hce.1 hce.2
          exact ih n (hmono.2.2.2.2.2.1 hflag)
            (fun x hx => hcond x (List.mem_cons_of_mem e hx)) hmem2

/-- Claim C10 witness: the amended theorem applied at a concrete state with
`phase4_buy` already set, over a one-tick trace. -/
theorem claim_C10_witness :
    (some PhaseAction.p4buy) ∉ trace_acts c10w_state [c10w_env] :=
  claim_C10_amended.2 [c10w_env] c10w_state rfl (by decide)

/-- Claim C4 counterexample.  The Phase 5 sweep works off the broker
balance, not the tracked Position statuses: with stock 005930 tracked as
Closed (`"매도완료"`, its threshold sell failed, cf. claim C2) but still
present in the broker balance with 3 shares, the sweep places a sell order
for it; and with stock 000660 tracked as Open but absent from the balance,
no sell order is placed for it.  Both directions of the claim fail. -/
theorem claim_C4_counterexample :
    ("005930", "매도완료") ∈ c4_positions ∧
    is_open_status "매도완료" = false ∧
    (liquidate_all_positions (fun _ => true) c4_balance).orders =
      ["005930"] ∧
    ("000660", "보유") ∈ c4_positions ∧ is_open_status "보유" = true ∧
    "000660" ∉ (liquidate_all_positions (fun _ => true) c4_balance).orders := by
  decide

/-- Claim C4 (corrected).  The Phase 5 liquidation sweep places a sell order
for exactly the broker-balance entries with positive held quantity — in
balance order, independent of the sell outcomes and of any tracked Position
status (which `liquidate_all_positions` never reads). -/
theorem claim_C4_amended (sell_ok : String → Bool)
    (stocks : List BalanceStock) :
    (liquidate_all_positions sell_ok stocks).orders =
      (stocks.filter (fun st => decide (0 < st.qty))).map
        (fun st => st.code) := by
  cases stocks with
  | nil => rfl
  | cons st rest =>
    unfold liquidate_all_positions
    rw [if_neg (by simp), liquidate_fold_orders]
    simp

end ChulAutoStock
